import Mathlib

/-
Verification of the BotMaestro SDK client (src/botcity/maestro/sdk.py)
against its natural-language specification.

The embedding models:
  * JSON values and a JSON parser (standing in for the Python json module,
    an external collaborator of the source);
  * the BotMaestroSDK state (server, login, key, access token);
  * every endpoint method as a pure function of the SDK state, the method
    arguments and the HTTP response the network would return.  Each method
    yields its result (success value or raised error) together with the
    list of HTTP requests it issued, so that claims about "no request is
    issued" and about request parameters can be stated directly.
-/

namespace Botcity

/-- JSON values as produced by Python json.loads.  Numbers are modelled as
integers, which covers every payload appearing in the repository and its
specification (no claim involves floating point). -/
inductive Json where
  | null : Json
  | bool : Bool → Json
  | num : Int → Json
  | str : String → Json
  | arr : List Json → Json
  | obj : List (String × Json) → Json

/-- Characters that the parser has to recognise, written via code points. -/
def quoteChar : Char := Char.ofNat 34

/-- Backslash character, via its code point. -/
def backslashChar : Char := Char.ofNat 92

/-- Opening brace character, via its code point. -/
def lbraceChar : Char := Char.ofNat 123

/-- Closing brace character, via its code point. -/
def rbraceChar : Char := Char.ofNat 125

/-- Whitespace recognised between JSON tokens. -/
def isWsChar (c : Char) : Bool :=
  c = ' ' || c = Char.ofNat 10 || c = Char.ofNat 9 || c = Char.ofNat 13

/-- Drop leading whitespace. -/
def skipWs : List Char → List Char
  | [] => []
  | c :: cs => if isWsChar c then skipWs cs else c :: cs

/-- Decode one JSON string escape character. -/
def escChar (e : Char) : Option Char :=
  if e = quoteChar then some quoteChar
  else if e = backslashChar then some backslashChar
  else if e = '/' then some '/'
  else if e = 'b' then some (Char.ofNat 8)
  else if e = 'f' then some (Char.ofNat 12)
  else if e = 'n' then some (Char.ofNat 10)
  else if e = 'r' then some (Char.ofNat 13)
  else if e = 't' then some (Char.ofNat 9)
  else none

/-- Parse the body of a JSON string literal (after the opening quote),
returning the decoded characters and the remaining input. -/
def parseStringBody : List Char → Option (List Char × List Char)
  | [] => none
  | c :: rest =>
    if c = quoteChar then some ([], rest)
    else if c = backslashChar then
      match rest with
      | [] => none
      | e :: rest2 =>
        match escChar e with
        | none => none
        | some ec =>
          match parseStringBody rest2 with
          | some (cs, r) => some (ec :: cs, r)
          | none => none
    else
      match parseStringBody rest with
      | some (cs, r) => some (c :: cs, r)
      | none => none

/-- Numeric value of a list of decimal digits. -/
def digitsToNat (ds : List Char) : Nat :=
  ds.foldl (fun n c => 10 * n + (c.toNat - 48)) 0

/-- Parse the elements of a JSON array given a parser for one value. -/
def parseElemsAux (pv : List Char → Option (Json × List Char)) :
    Nat → List Char → Option (List Json × List Char)
  | 0, _ => none
  | n + 1, cs =>
    match pv cs with
    | none => none
    | some (v, r) =>
      match skipWs r with
      | ',' :: r2 =>
        match parseElemsAux pv n r2 with
        | some (xs, r3) => some (v :: xs, r3)
        | none => none
      | ']' :: r2 => some ([v], r2)
      | _ => none

/-- Parse the fields of a JSON object given a parser for one value. -/
def parseFieldsAux (pv : List Char → Option (Json × List Char)) :
    Nat → List Char → Option (List (String × Json) × List Char)
  | 0, _ => none
  | n + 1, cs =>
    match skipWs cs with
    | [] => none
    | c :: rest =>
      if c = quoteChar then
        match parseStringBody rest with
        | none => none
        | some (kcs, r) =>
          match skipWs r with
          | ':' :: r2 =>
            match pv r2 with
            | none => none
            | some (v, r3) =>
              match skipWs r3 with
              | ',' :: r4 =>
                match parseFieldsAux pv n r4 with
                | some (fs, r5) => some ((String.mk kcs, v) :: fs, r5)
                | none => none
              | c2 :: r4 =>
                if c2 = rbraceChar then some ([(String.mk kcs, v)], r4) else none
              | [] => none
          | _ => none
      else none

/-- Parse one JSON value, fuelled to guarantee termination. -/
def parseVal : Nat → List Char → Option (Json × List Char)
  | 0, _ => none
  | n + 1, cs =>
    match skipWs cs with
    | [] => none
    | 'n' :: 'u' :: 'l' :: 'l' :: rest => some (.null, rest)
    | 't' :: 'r' :: 'u' :: 'e' :: rest => some (.bool true, rest)
    | 'f' :: 'a' :: 'l' :: 's' :: 'e' :: rest => some (.bool false, rest)
    | '-' :: rest =>
      let ds := rest.takeWhile Char.isDigit
      if ds.isEmpty then none
      else some (.num (-(Int.ofNat (digitsToNat ds))), rest.dropWhile Char.isDigit)
    | c :: rest =>
      if c = quoteChar then
        match parseStringBody rest with
        | some (scs, r) => some (.str (String.mk scs), r)
        | none => none
      else if c = '[' then
        match skipWs rest with
        | ']' :: r2 => some (.arr [], r2)
        | cs2 =>
          match parseElemsAux (parseVal n) (cs2.length + 1) cs2 with
          | some (xs, r) => some (.arr xs, r)
          | none => none
      else if c = lbraceChar then
        match skipWs rest with
        | [] => none
        | c2 :: r2 =>
          if c2 = rbraceChar then some (.obj [], r2)
          else
            match parseFieldsAux (parseVal n) ((c2 :: r2).length + 1) (c2 :: r2) with
            | some (fs, r) => some (.obj fs, r)
            | none => none
      else
        let ds := (c :: rest).takeWhile Char.isDigit
        if ds.isEmpty then none
        else some (.num (Int.ofNat (digitsToNat ds)), (c :: rest).dropWhile Char.isDigit)

/-- Python json.loads on a string: parse one value and require that only
whitespace remains. -/
def Json.parse (s : String) : Option Json :=
  match parseVal (s.length + 1) s.toList with
  | some (v, r) => if (skipWs r).isEmpty then some v else none
  | none => none

/-- Python dict lookup on a parsed JSON object: with duplicate keys,
json.loads keeps the last value, so the lookup takes the last binding. -/
def jsonFind (fs : List (String × Json)) (k : String) : Option Json :=
  (fs.reverse.find? (fun p => p.1 == k)).map (fun p => p.2)

/-- Field lookup through a JSON value, none when the value is not an object
or lacks the key (Python dict.get). -/
def jsonObjGet (j : Json) (k : String) : Option Json :=
  match j with
  | .obj fs => jsonFind fs k
  | _ => none

example : Json.parse "123" = some (Json.num 123) := rfl
example : Json.parse "\x7b\"a\": 1\x7d" = some (Json.obj [("a", Json.num 1)]) := rfl
example : Json.parse "[1, \"x\"]" = some (Json.arr [Json.num 1, Json.str "x"]) := rfl
example :
    Json.parse "\x7b\"message\":\"bad thing\"\x7d"
      = some (Json.obj [("message", Json.str "bad thing")]) := rfl
example :
    Json.parse "[\x7b\"columns\":\x7b\"a\":1\x7d\x7d,\x7b\"columns\":\x7b\"a\":2\x7d\x7d]"
      = some (Json.arr [Json.obj [("columns", Json.obj [("a", Json.num 1)])],
                        Json.obj [("columns", Json.obj [("a", Json.num 2)])]]) := rfl
example :
    Json.parse "\x7b\"message\": \"[\x7b\\\"columns\\\":\x7b\\\"a\\\":1\x7d\x7d]\"\x7d"
      = some (Json.obj [("message",
          Json.str "[\x7b\"columns\":\x7b\"a\":1\x7d\x7d]")]) := rfl

/-- Python str() of a JSON value, as used by the %s formatting in the error
messages.  str of a string is the string itself; nested containers render
with Python repr conventions. -/
def pyRepr : Json → String
  | .null => "None"
  | .bool true => "True"
  | .bool false => "False"
  | .num n => toString n
  | .str s => "\x27" ++ s ++ "\x27"
  | .arr xs => "[" ++ String.intercalate ", " (xs.attach.map (fun x => pyRepr x.1)) ++ "]"
  | .obj fs =>
      "\x7b" ++
        String.intercalate ", "
          (fs.attach.map (fun kv => "\x27" ++ kv.1.1 ++ "\x27: " ++ pyRepr kv.1.2)) ++
      "\x7d"
decreasing_by
  · have h := List.sizeOf_lt_of_mem x.2
    simp only [Json.arr.sizeOf_spec]
    omega
  · have h1 : sizeOf kv.1.2 < sizeOf kv.1 := by
      rcases kv with ⟨⟨a, b⟩, hm⟩
      simp
    have h2 := List.sizeOf_lt_of_mem kv.2
    simp only [Json.obj.sizeOf_spec]
    omega

/-- Python str() applied at the top level (%s formatting): a string renders
without quotes, anything else with repr. -/
def pyStr : Json → String
  | .str s => s
  | j => pyRepr j

/-- Escape one character for JSON serialisation. -/
def escJsonChar (c : Char) : String :=
  if c = quoteChar then String.mk [backslashChar, quoteChar]
  else if c = backslashChar then String.mk [backslashChar, backslashChar]
  else String.mk [c]

/-- Escape a string for JSON serialisation. -/
def jsonEscape (s : String) : String :=
  String.join (s.toList.map escJsonChar)

/-- Python json.dumps with default separators, standing in for the calls in
create_task, new_log and new_log_entry. -/
def Json.dumps : Json → String
  | .null => "null"
  | .bool true => "true"
  | .bool false => "false"
  | .num n => toString n
  | .str s => String.mk [quoteChar] ++ jsonEscape s ++ String.mk [quoteChar]
  | .arr xs => "[" ++ String.intercalate ", " (xs.attach.map (fun x => Json.dumps x.1)) ++ "]"
  | .obj fs =>
      "\x7b" ++
        String.intercalate ", "
          (fs.attach.map (fun kv =>
            String.mk [quoteChar] ++ jsonEscape kv.1.1 ++ String.mk [quoteChar] ++ ": "
              ++ Json.dumps kv.1.2)) ++
      "\x7d"
decreasing_by
  · have h := List.sizeOf_lt_of_mem x.2
    simp only [Json.arr.sizeOf_spec]
    omega
  · have h1 : sizeOf kv.1.2 < sizeOf kv.1 := by
      rcases kv with ⟨⟨a, b⟩, hm⟩
      simp
    have h2 := List.sizeOf_lt_of_mem kv.2
    simp only [Json.obj.sizeOf_spec]
    omega

/-- Errors the Python code can raise.  JSONDecodeError is a ValueError
subclass in Python; it is kept separate here and the places where the source
catches ValueError treat both accordingly.  ValueError carries the tuple of
arguments it was constructed with. -/
inductive Err where
  | valueError : List String → Err
  | runtimeError : String → Err
  | keyError : String → Err
  | typeError : Err
  | attributeError : Err
  | jsonDecodeError : Err
deriving Repr, DecidableEq

/-- An HTTP response as the methods observe it: status code, body text, the
response headers and the raw body bytes (requests exposes the latter two as
req.headers and req.content). -/
structure Response where
  status_code : Int
  text : String
  headers : List (String × String)
  content : List Nat

/-- Response header lookup (requests headers mapping). -/
def getHeader (r : Response) (k : String) : Option String :=
  (r.headers.find? (fun p => p.1 == k)).map (fun p => p.2)

/-- HTTP verb of an issued request. -/
inductive Verb where
  | post : Verb
  | get : Verb
deriving Repr, DecidableEq

/-- One file part of a multipart upload (post_artifact). -/
structure FilePart where
  field : String
  filename : String
  content : List Nat
  content_type : String
  extra_headers : List (String × String)

/-- One HTTP request as issued by the methods: data is the form body of a
POST, params the query string of a GET.  Values keep their Python types via
the Json universe (strings, the token object, integers). -/
structure Request where
  verb : Verb
  url : String
  data : List (String × Json)
  params : List (String × Json)
  files : List FilePart

/-- The BotMaestroSDK state: fields _server, _login, _key, _access_token of
the Python class.  The token is the Python attribute value, none standing
for Python None. -/
structure BotMaestroSDK where
  _server : Option String
  _login : Option String
  _key : Option String
  _access_token : Option Json

/-- The server property setter (sdk.py lines 63-68): remove one additional
trailing slash from a truthy value. -/
def stripTrailingSlash (s : String) : String :=
  match s.toList.getLast? with
  | some c => if c = '/' then String.mk s.toList.dropLast else s
  | none => s

/-- Assigning the server property: None is stored as is, a string is stored
with one trailing slash stripped (an empty string is falsy in Python and is
stored unchanged, which stripTrailingSlash also leaves unchanged). -/
def setServer (sdk : BotMaestroSDK) (server : Option String) : BotMaestroSDK :=
  match server with
  | none => { sdk with _server := none }
  | some s => { sdk with _server := some (stripTrailingSlash s) }

/-- The constructor (sdk.py lines 37-56): stores login and key, leaves the
token absent, and assigns server through the property setter. -/
def BotMaestroSDK.init (server lg key : Option String) : BotMaestroSDK :=
  setServer { _server := none, _login := lg, _key := key, _access_token := none } server

/-- Python truthiness of an optional string: None and the empty string are
falsy. -/
def truthyStr : Option String → Bool
  | none => false
  | some s => !(s == "")

/-- Python "a or b" on optional strings. -/
def pyOrStr (a b : Option String) : Option String :=
  if truthyStr a then a else b

/-- Python f-string interpolation of an optional string: None renders as
"None". -/
def fstr : Option String → String
  | none => "None"
  | some s => s

/-- Storing a value obtained from JSON into the access_token attribute:
JSON null becomes Python None. -/
def pyToOpt : Json → Option Json
  | .null => none
  | v => some v

/-- The message of the RuntimeError raised by the ensure_access_token
decorator (sdk.py lines 13-33). -/
def tokenGuardMsg : String :=
  "Access Token not available. Make sure to invoke login first."

/-- The formatted message of the errors raised on a non-200 response:
the Python format string is applied with the status code and a detail. -/
def serverReturnedMsg (op : String) (status : Int) (detail : String) : String :=
  "Error during " ++ op ++ ". Server returned " ++ toString status ++ ". " ++ detail

/-- The repeated non-200 error block of sdk.py (e.g. lines 200-206, 232-238,
257-263, 283-289, 311-317, 339-345, 369-375, 398-404, 437-443, 467-473):
inside a try, the message field of the parsed JSON body (empty default) is
formatted with the status
code; the except ValueError arm falls back to the raw body text.  A JSON
body that is not an object makes .get raise AttributeError, which the
except clause does not catch. -/
def non200Error (op : String) (r : Response) : Err :=
  match Json.parse r.text with
  | none => .valueError [serverReturnedMsg op r.status_code r.text]
  | some (.obj fs) =>
      .valueError [serverReturnedMsg op r.status_code
        (pyStr ((jsonFind fs "message").getD (.str "")))]
  | some _ => .attributeError

/-- The non-200 branch of the message method (sdk.py lines 172-176), which
unlike the block above has no try/except: a JSON decoding failure
propagates. -/
def messageNon200 (r : Response) : Err :=
  match Json.parse r.text with
  | none => .jsonDecodeError
  | some (.obj fs) =>
      .valueError [serverReturnedMsg "message" r.status_code
        (pyStr ((jsonFind fs "message").getD (.str "")))]
  | some _ => .attributeError

/-- Modelled from the spec: botcity.maestro.model is not under src/;
ServerMessage is the generic success envelope with result and message
fields, built by parsing the response body as JSON. -/
structure ServerMessage where
  result : Option Json
  message : Option Json

/-- Modelled from the spec: ServerMessage.from_json parses the body text;
a malformed body raises the JSON decoding error. -/
def ServerMessage.from_json (text : String) : Except Err ServerMessage :=
  match Json.parse text with
  | some j => .ok { result := jsonObjGet j "result", message := jsonObjGet j "message" }
  | none => .error .jsonDecodeError

/-- Modelled from the spec: botcity.maestro.model is not under src/;
AutomationTask carries the task payload parsed from its JSON string. -/
structure AutomationTask where
  raw : Json

/-- Modelled from the spec: AutomationTask.from_json takes the Python value
handed to it by the SDK (a JSON string for get_task, whatever the payload
field held for create_task, possibly None) and parses it. -/
def AutomationTask.from_json : Option Json → Except Err AutomationTask
  | some (.str s) =>
    match Json.parse s with
    | some j => .ok { raw := j }
    | none => .error .jsonDecodeError
  | _ => .error .typeError

/-- Modelled from the spec: Column is the name and label pair describing one
field of a log schema (botcity.maestro.model is not under src/). -/
structure Column where
  name : String
  label : String

/-- The columns list serialised for new_log: asdict of each Column. -/
def columnsJson (cols : List Column) : Json :=
  .arr (cols.map (fun c => .obj [("name", .str c.name), ("label", .str c.label)]))

/-- logoff (sdk.py lines 112-116): clear the stored token, no I/O. -/
def logoff (sdk : BotMaestroSDK) : BotMaestroSDK :=
  { sdk with _access_token := none }

/-- The credential overrides at the top of login (sdk.py lines 91-94):
a truthy server argument goes through the server property setter; login and
key are replaced with Python "or" semantics. -/
def applyOverrides (sdk : BotMaestroSDK) (server lg key : Option String) : BotMaestroSDK :=
  let sdk1 := if truthyStr server then setServer sdk server else sdk
  let sdk2 := { sdk1 with _login := pyOrStr lg sdk1._login }
  { sdk2 with _key := pyOrStr key sdk2._key }

/-- login (sdk.py lines 79-110): apply overrides, validate the three
credentials, logoff, then POST to /app/api/login; a 200 response stores the
access_token field of the JSON body, anything else raises ValueError with
the status code and body text.  The result carries the outcome, the state
of the object after the call (Python mutations survive a raise) and the
requests issued. -/
def login (sdk : BotMaestroSDK) (server lg key : Option String) (resp : Response) :
    Except Err Unit × BotMaestroSDK × List Request :=
  let sdk1 := applyOverrides sdk server lg key
  if truthyStr sdk1._server = false then
    (.error (.valueError ["Server is required."]), sdk1, [])
  else if truthyStr sdk1._login = false then
    (.error (.valueError ["Login is required."]), sdk1, [])
  else if truthyStr sdk1._key = false then
    (.error (.valueError ["Key is required."]), sdk1, [])
  else
    let sdk2 := logoff sdk1
    let url := fstr sdk2._server ++ "/app/api/login"
    let data : List (String × Json) :=
      [("userLogin", .str (sdk2._login.getD "")), ("key", .str (sdk2._key.getD ""))]
    let req : Request :=
      { verb := .post, url := url, data := data, params := [], files := [] }
    if resp.status_code = 200 then
      match Json.parse resp.text with
      | none => (.error .jsonDecodeError, sdk2, [req])
      | some (.obj fs) =>
        match jsonFind fs "access_token" with
        | none => (.error (.keyError "access_token"), sdk2, [req])
        | some v => (.ok (), { sdk2 with _access_token := pyToOpt v }, [req])
      | some _ => (.error .typeError, sdk2, [req])
    else
      (.error (.valueError [serverReturnedMsg "login" resp.status_code resp.text]), sdk2, [req])

/-- alert (sdk.py lines 118-143).  Note that the non-200 branch raises
ValueError with two arguments, the unformatted string and the body text. -/
def alert (sdk : BotMaestroSDK) (task_id title msg alert_type : String)
    (resp : Response) : Except Err ServerMessage × List Request :=
  match sdk._access_token with
  | none => (.error (.runtimeError tokenGuardMsg), [])
  | some tok =>
    let url := fstr sdk._server ++ "/app/api/alert/send"
    let data : List (String × Json) :=
      [("taskId", .str task_id), ("title", .str title), ("message", .str msg),
       ("type", .str alert_type), ("access_token", tok)]
    let req : Request :=
      { verb := .post, url := url, data := data, params := [], files := [] }
    if resp.status_code = 200 then
      (ServerMessage.from_json resp.text, [req])
    else
      (.error (.valueError ["Error during alert. %s", resp.text]), [req])

/-- message (sdk.py lines 145-176): comma-joined recipient lists; the
non-200 branch formats the JSON message field without a try/except. -/
def message (sdk : BotMaestroSDK) (email users : List String)
    (subject bodyStr msg_type group : String) (resp : Response) :
    Except Err ServerMessage × List Request :=
  match sdk._access_token with
  | none => (.error (.runtimeError tokenGuardMsg), [])
  | some tok =>
    let url := fstr sdk._server ++ "/app/api/message/send"
    let email_str := String.intercalate "," email
    let users_str := String.intercalate "," users
    let data : List (String × Json) :=
      [("email", .str email_str), ("users", .str users_str), ("subject", .str subject),
       ("body", .str bodyStr), ("type", .str msg_type), ("group", .str group),
       ("access_token", tok)]
    let req : Request :=
      { verb := .post, url := url, data := data, params := [], files := [] }
    if resp.status_code = 200 then
      (ServerMessage.from_json resp.text, [req])
    else
      (.error (messageNon200 resp), [req])

/-- create_task (sdk.py lines 178-206): POST with the JSON-encoded
parameters; a 200 response hands the payload field to
AutomationTask.from_json. -/
def create_task (sdk : BotMaestroSDK) (activity_label : String) (parameters : Json)
    (test : Bool) (resp : Response) : Except Err AutomationTask × List Request :=
  match sdk._access_token with
  | none => (.error (.runtimeError tokenGuardMsg), [])
  | some tok =>
    let url := fstr sdk._server ++ "/app/api/task/create"
    let data : List (String × Json) :=
      [("activityLabel", .str activity_label), ("jsonParams", .str (Json.dumps parameters)),
       ("taskForTest", .str (if test then "true" else "false")), ("access_token", tok)]
    let req : Request :=
      { verb := .post, url := url, data := data, params := [], files := [] }
    if resp.status_code = 200 then
      match Json.parse resp.text with
      | none => (.error .jsonDecodeError, [req])
      | some (.obj fs) => (AutomationTask.from_json (jsonFind fs "payload"), [req])
      | some _ => (.error .attributeError, [req])
    else
      (.error (non200Error "task create" resp), [req])

/-- finish_task (sdk.py lines 208-238): processedItems is the constant
"1". -/
def finish_task (sdk : BotMaestroSDK) (task_id status msg : String)
    (resp : Response) : Except Err ServerMessage × List Request :=
  match sdk._access_token with
  | none => (.error (.runtimeError tokenGuardMsg), [])
  | some tok =>
    let url := fstr sdk._server ++ "/app/api/task/finish"
    let data : List (String × Json) :=
      [("taskId", .str task_id), ("finishStatus", .str status),
       ("finishMessage", .str msg), ("processedItems", .str "1"), ("access_token", tok)]
    let req : Request :=
      { verb := .post, url := url, data := data, params := [], files := [] }
    if resp.status_code = 200 then
      (ServerMessage.from_json resp.text, [req])
    else
      (.error (non200Error "task finish" resp), [req])

/-- restart_task (sdk.py lines 240-263). -/
def restart_task (sdk : BotMaestroSDK) (task_id : String) (resp : Response) :
    Except Err ServerMessage × List Request :=
  match sdk._access_token with
  | none => (.error (.runtimeError tokenGuardMsg), [])
  | some tok =>
    let url := fstr sdk._server ++ "/app/api/task/restart"
    let data : List (String × Json) := [("id", .str task_id), ("access_token", tok)]
    let req : Request :=
      { verb := .post, url := url, data := data, params := [], files := [] }
    if resp.status_code = 200 then
      (ServerMessage.from_json resp.text, [req])
    else
      (.error (non200Error "task restart" resp), [req])

/-- get_task (sdk.py lines 265-289): a GET whose parameters are the query
string; the 200 body text goes to AutomationTask.from_json. -/
def get_task (sdk : BotMaestroSDK) (task_id : String) (resp : Response) :
    Except Err AutomationTask × List Request :=
  match sdk._access_token with
  | none => (.error (.runtimeError tokenGuardMsg), [])
  | some tok =>
    let url := fstr sdk._server ++ "/app/api/task/get"
    let data : List (String × Json) := [("id", .str task_id), ("access_token", tok)]
    let req : Request :=
      { verb := .get, url := url, data := [], params := data, files := [] }
    if resp.status_code = 200 then
      (AutomationTask.from_json (some (.str resp.text)), [req])
    else
      (.error (non200Error "task get" resp), [req])

/-- new_log (sdk.py lines 291-317): the columns are serialised to one JSON
form field. -/
def new_log (sdk : BotMaestroSDK) (activity_label : String) (columns : List Column)
    (resp : Response) : Except Err ServerMessage × List Request :=
  match sdk._access_token with
  | none => (.error (.runtimeError tokenGuardMsg), [])
  | some tok =>
    let url := fstr sdk._server ++ "/app/api/log/create"
    let data : List (String × Json) :=
      [("activityLabel", .str activity_label),
       ("columns", .str (Json.dumps (columnsJson columns))), ("access_token", tok)]
    let req : Request :=
      { verb := .post, url := url, data := data, params := [], files := [] }
    if resp.status_code = 200 then
      (ServerMessage.from_json resp.text, [req])
    else
      (.error (non200Error "new log" resp), [req])

/-- new_log_entry (sdk.py lines 319-345). -/
def new_log_entry (sdk : BotMaestroSDK) (activity_label : String) (values : Json)
    (resp : Response) : Except Err ServerMessage × List Request :=
  match sdk._access_token with
  | none => (.error (.runtimeError tokenGuardMsg), [])
  | some tok =>
    let url := fstr sdk._server ++ "/app/api/newLogEntry"
    let data : List (String × Json) :=
      [("logName", .str activity_label), ("columns", .str (Json.dumps values)),
       ("access_token", tok)]
    let req : Request :=
      { verb := .post, url := url, data := data, params := [], files := [] }
    if resp.status_code = 200 then
      (ServerMessage.from_json resp.text, [req])
    else
      (.error (non200Error "new log entry" resp), [req])

/-- The list comprehension of get_log line 368: the columns lookup of
every entry; a non-dict entry makes the lookup raise AttributeError. -/
def entryColumns : List Json → Except Err (List (Option Json))
  | [] => .ok []
  | .obj fs :: rest =>
    match entryColumns rest with
    | .ok xs => .ok (jsonFind fs "columns" :: xs)
    | .error e => .error e
  | _ :: _ => .error .attributeError

/-- get_log (sdk.py lines 347-375): a GET; the message field of the 200 body is
itself a JSON-encoded array whose entries project to their columns field.
json.loads of a non-string message raises TypeError; subscripting a
non-object body raises TypeError; iteration over a non-array message value
is modelled as a type error (no claim exercises that corner). -/
def get_log (sdk : BotMaestroSDK) (activity_label dt : String) (resp : Response) :
    Except Err (List (Option Json)) × List Request :=
  match sdk._access_token with
  | none => (.error (.runtimeError tokenGuardMsg), [])
  | some tok =>
    let url := fstr sdk._server ++ "/app/api/log/read"
    let data : List (String × Json) :=
      [("activityLabel", .str activity_label), ("date", .str dt), ("access_token", tok)]
    let req : Request :=
      { verb := .get, url := url, data := [], params := data, files := [] }
    if resp.status_code = 200 then
      match Json.parse resp.text with
      | none => (.error .jsonDecodeError, [req])
      | some (.obj fs) =>
        match jsonFind fs "message" with
        | none => (.error (.keyError "message"), [req])
        | some (.str m) =>
          match Json.parse m with
          | none => (.error .jsonDecodeError, [req])
          | some (.arr entries) => (entryColumns entries, [req])
          | some _ => (.error .typeError, [req])
        | some _ => (.error .typeError, [req])
      | some _ => (.error .typeError, [req])
    else
      (.error (non200Error "log read" resp), [req])

/-- delete_log (sdk.py lines 377-404). -/
def delete_log (sdk : BotMaestroSDK) (activity_label : String) (resp : Response) :
    Except Err ServerMessage × List Request :=
  match sdk._access_token with
  | none => (.error (.runtimeError tokenGuardMsg), [])
  | some tok =>
    let url := fstr sdk._server ++ "/app/api/log/delete"
    let data : List (String × Json) :=
      [("activityLabel", .str activity_label), ("access_token", tok)]
    let req : Request :=
      { verb := .post, url := url, data := data, params := [], files := [] }
    if resp.status_code = 200 then
      (ServerMessage.from_json resp.text, [req])
    else
      (.error (non200Error "log delete" resp), [req])

/-- post_artifact (sdk.py lines 406-443): multipart POST; file_content is
the byte content read from the filepath the caller handed in. -/
def post_artifact (sdk : BotMaestroSDK) (task_id : Int) (artifact_name : String)
    (file_content : List Nat) (resp : Response) :
    Except Err ServerMessage × List Request :=
  match sdk._access_token with
  | none => (.error (.runtimeError tokenGuardMsg), [])
  | some tok =>
    let url := fstr sdk._server ++ "/app/api/newArtifact"
    let data : List (String × Json) :=
      [("taskId", .num task_id), ("name", .str artifact_name), ("access_token", tok)]
    let files : List FilePart :=
      [{ field := "body", filename := artifact_name, content := file_content,
         content_type := "application/octet-stream",
         extra_headers := [("Expires", "0")] }]
    let req : Request :=
      { verb := .post, url := url, data := data, params := [], files := files }
    if resp.status_code = 200 then
      (ServerMessage.from_json resp.text, [req])
    else
      (.error (non200Error "artifact posting" resp), [req])

/-- Last index of a character in a list, as Python str.rfind. -/
def pyRfindAux (c : Char) : List Char → Option Nat
  | [] => none
  | a :: l =>
    match pyRfindAux c l with
    | some i => some (i + 1)
    | none => if a = c then some 0 else none

/-- Python str.rfind for a single character: last index, or -1. -/
def pyRfind (s : String) (c : Char) : Int :=
  match pyRfindAux c s.toList with
  | some i => (i : Int)
  | none => -1

/-- Resolve one Python slice bound against a length: negative bounds count
from the end, everything is clamped into [0, n]. -/
def pyIdx (n : Nat) (i : Int) : Nat :=
  if i < 0 then (i + (n : Int)).toNat else min i.toNat n

/-- Python two-sided slice s[a:b]. -/
def pySlice (s : String) (a b : Int) : String :=
  String.mk ((s.toList.drop (pyIdx s.toList.length a)).take
    (pyIdx s.toList.length b - pyIdx s.toList.length a))

/-- Python slice s[:b]. -/
def pySliceTo (s : String) (b : Int) : String :=
  String.mk (s.toList.take (pyIdx s.toList.length b))

/-- Python slice s[a:]. -/
def pySliceFrom (s : String) (a : Int) : String :=
  String.mk (s.toList.drop (pyIdx s.toList.length a))

/-- get_artifact (sdk.py lines 445-473): a GET; on 200 the filename is cut
out of the Content-Disposition header with the slice rules of lines 464-465
and the body bytes are returned verbatim. -/
def get_artifact (sdk : BotMaestroSDK) (artifact_id : Int) (resp : Response) :
    Except Err (String × List Nat) × List Request :=
  match sdk._access_token with
  | none => (.error (.runtimeError tokenGuardMsg), [])
  | some tok =>
    let url := fstr sdk._server ++ "/app/api/artifact/get"
    let data : List (String × Json) := [("id", .num artifact_id), ("access_token", tok)]
    let req : Request :=
      { verb := .get, url := url, data := [], params := data, files := [] }
    if resp.status_code = 200 then
      match getHeader resp "Content-Disposition" with
      | none => (.error (.keyError "Content-Disposition"), [req])
      | some h_content =>
        let filename := pySlice h_content (pyRfind h_content '=' + 2) (-1)
        let filename2 :=
          pySliceTo filename (pyRfind filename '_') ++ pySliceFrom filename (pyRfind filename '.')
        (.ok (filename2, resp.content), [req])
    else
      (.error (non200Error "artifact get" resp), [req])

/-- A logged-in client used as a concrete input by the witnesses. -/
def sdkT : BotMaestroSDK :=
  { _server := some "http://srv", _login := some "u", _key := some "k",
    _access_token := some (Json.str "T") }

/-- A client that never logged in. -/
def sdkNoTok : BotMaestroSDK :=
  { _server := some "http://srv", _login := some "u", _key := some "k",
    _access_token := none }

/-- A non-200 response whose body is the JSON object with message
"bad thing". -/
def respBadThing : Response :=
  { status_code := 500, text := "\x7b\"message\":\"bad thing\"\x7d",
    headers := [], content := [] }

/-- stripTrailingSlash removes the trailing slash appended to any string. -/
theorem stripTrailingSlash_append (s : String) : stripTrailingSlash (s ++ "/") = s := by
  unfold stripTrailingSlash
  rw [show (s ++ "/").toList = s.toList ++ ['/'] from rfl, List.getLast?_concat]
  simp [List.dropLast_concat]

/-- stripTrailingSlash keeps a string whose last character is not a
slash. -/
theorem stripTrailingSlash_keep (s : String) (h : s.toList.getLast? ≠ some '/') :
    stripTrailingSlash s = s := by
  unfold stripTrailingSlash
  cases hl : s.toList.getLast? with
  | none => rfl
  | some c =>
    have hc : ¬ c = '/' := fun he => h (he ▸ hl)
    simp [hc]

/-- C7: storing a server base URL strips exactly one trailing slash and is a
pure state update, so for every URL not already ending in a slash the stored
base URL is the same with or without the trailing slash.  The first part
states the equivalence, the second that exactly one slash is stripped from
any URL with a trailing slash. -/
theorem claim7_server_trailing_slash :
    (∀ (sdk : BotMaestroSDK) (s : String), s.toList.getLast? ≠ some '/' →
      setServer sdk (some (s ++ "/")) = setServer sdk (some s)) ∧
    (∀ (sdk : BotMaestroSDK) (s : String),
      (setServer sdk (some (s ++ "/")))._server = some s) := by
  constructor
  · intro sdk s h
    simp only [setServer]
    rw [stripTrailingSlash_append, stripTrailingSlash_keep s h]
  · intro sdk s
    simp only [setServer]
    rw [stripTrailingSlash_append]

/-- Witness for C7 at the example URL of the spec. -/
theorem claim7_witness :
    setServer sdkNoTok (some ("http://x" ++ "/")) = setServer sdkNoTok (some "http://x") :=
  claim7_server_trailing_slash.1 sdkNoTok "http://x" (by decide)

/-- C2: every authenticated operation checks the stored access token first
(the ensure_access_token decorator): with no token it raises the
RuntimeError of the decorator and issues no HTTP request at all. -/
theorem claim2_requires_token :
    (∀ sdk a b c d resp, sdk._access_token = none →
      alert sdk a b c d resp = (.error (.runtimeError tokenGuardMsg), [])) ∧
    (∀ sdk em us su bo ty gr resp, sdk._access_token = none →
      message sdk em us su bo ty gr resp = (.error (.runtimeError tokenGuardMsg), [])) ∧
    (∀ sdk al pa te resp, sdk._access_token = none →
      create_task sdk al pa te resp = (.error (.runtimeError tokenGuardMsg), [])) ∧
    (∀ sdk ti st ms resp, sdk._access_token = none →
      finish_task sdk ti st ms resp = (.error (.runtimeError tokenGuardMsg), [])) ∧
    (∀ sdk ti resp, sdk._access_token = none →
      restart_task sdk ti resp = (.error (.runtimeError tokenGuardMsg), [])) ∧
    (∀ sdk ti resp, sdk._access_token = none →
      get_task sdk ti resp = (.error (.runtimeError tokenGuardMsg), [])) ∧
    (∀ sdk al co resp, sdk._access_token = none →
      new_log sdk al co resp = (.error (.runtimeError tokenGuardMsg), [])) ∧
    (∀ sdk al va resp, sdk._access_token = none →
      new_log_entry sdk al va resp = (.error (.runtimeError tokenGuardMsg), [])) ∧
    (∀ sdk al dt resp, sdk._access_token = none →
      get_log sdk al dt resp = (.error (.runtimeError tokenGuardMsg), [])) ∧
    (∀ sdk al resp, sdk._access_token = none →
      delete_log sdk al resp = (.error (.runtimeError tokenGuardMsg), [])) ∧
    (∀ sdk ti an fc resp, sdk._access_token = none →
      post_artifact sdk ti an fc resp = (.error (.runtimeError tokenGuardMsg), [])) ∧
    (∀ sdk ai resp, sdk._access_token = none →
      get_artifact sdk ai resp = (.error (.runtimeError tokenGuardMsg), [])) := by
  refine ⟨?_, ?_, ?_, ?_, ?_, ?_, ?_, ?_, ?_, ?_, ?_, ?_⟩ <;> intros <;>
    simp_all [alert, message, create_task, finish_task, restart_task, get_task,
      new_log, new_log_entry, get_log, delete_log, post_artifact, get_artifact]

/-- Witness for C2: a concrete never-logged-in client. -/
theorem claim2_witness :
    alert sdkNoTok "1" "t" "m" "INFO" respBadThing
      = (.error (.runtimeError tokenGuardMsg), []) :=
  claim2_requires_token.1 sdkNoTok "1" "t" "m" "INFO" respBadThing rfl

/-- applyOverrides never touches the stored access token. -/
theorem applyOverrides_token (sdk : BotMaestroSDK) (s l k : Option String) :
    (applyOverrides sdk s l k)._access_token = sdk._access_token := by
  unfold applyOverrides setServer
  cases s with
  | none => simp [truthyStr]
  | some v => by_cases hv : v = "" <;> simp [truthyStr, hv]

/-- C5: login validates the three credentials, after overrides, before any
request: a falsy effective server, login or key (checked in that order)
raises the ValueError naming the field, leaves the state at the overridden
credentials, and issues no request. -/
theorem claim5_login_validation :
    ∀ (sdk : BotMaestroSDK) (s l k : Option String) (resp : Response),
      (truthyStr (applyOverrides sdk s l k)._server = false →
        login sdk s l k resp
          = (.error (.valueError ["Server is required."]), applyOverrides sdk s l k, [])) ∧
      (truthyStr (applyOverrides sdk s l k)._server = true →
        truthyStr (applyOverrides sdk s l k)._login = false →
        login sdk s l k resp
          = (.error (.valueError ["Login is required."]), applyOverrides sdk s l k, [])) ∧
      (truthyStr (applyOverrides sdk s l k)._server = true →
        truthyStr (applyOverrides sdk s l k)._login = true →
        truthyStr (applyOverrides sdk s l k)._key = false →
        login sdk s l k resp
          = (.error (.valueError ["Key is required."]), applyOverrides sdk s l k, [])) := by
  intro sdk s l k resp
  refine ⟨fun h1 => ?_, fun h1 h2 => ?_, fun h1 h2 h3 => ?_⟩
  · simp [login, h1]
  · simp [login, h1, h2]
  · simp [login, h1, h2, h3]

/-- Witness for C5: empty key after overrides. -/
theorem claim5_witness :
    login (BotMaestroSDK.init (some "http://x") (some "u") none) none none none respBadThing
      = (.error (.valueError ["Key is required."]),
         applyOverrides (BotMaestroSDK.init (some "http://x") (some "u") none) none none none,
         []) :=
  (claim5_login_validation (BotMaestroSDK.init (some "http://x") (some "u") none)
      none none none respBadThing).2.2 rfl rfl rfl

/-- C9: when credential validation fails, login has not yet reached the
logoff call of line 101, so the stored access token survives the failed
attempt unchanged. -/
theorem claim9_failed_login_keeps_token :
    ∀ (sdk : BotMaestroSDK) (s l k : Option String) (resp : Response),
      (truthyStr (applyOverrides sdk s l k)._server = false ∨
       truthyStr (applyOverrides sdk s l k)._login = false ∨
       truthyStr (applyOverrides sdk s l k)._key = false) →
      ((login sdk s l k resp).2.1)._access_token = sdk._access_token := by
  intro sdk s l k resp h
  cases hs : truthyStr (applyOverrides sdk s l k)._server <;>
    cases hl : truthyStr (applyOverrides sdk s l k)._login <;>
      cases hk : truthyStr (applyOverrides sdk s l k)._key <;>
        simp_all [login, applyOverrides_token]

/-- Witness for C9: a logged-in client attempts a login with the key
cleared; the old token survives. -/
theorem claim9_witness :
    ((login { sdkT with _key := none } none none none respBadThing).2.1)._access_token
      = some (Json.str "T") :=
  claim9_failed_login_keeps_token { sdkT with _key := none } none none none respBadThing
    (Or.inr (Or.inr rfl))

/-- Every branch of login returns a state whose credential fields are those
of the overridden state. -/
theorem login_keeps_credentials (sdk : BotMaestroSDK) (s l k : Option String)
    (resp : Response) :
    ((login sdk s l k resp).2.1)._server = (applyOverrides sdk s l k)._server ∧
    ((login sdk s l k resp).2.1)._login = (applyOverrides sdk s l k)._login ∧
    ((login sdk s l k resp).2.1)._key = (applyOverrides sdk s l k)._key := by
  simp only [login, logoff]
  refine ⟨?_, ?_, ?_⟩ <;> (repeat' split) <;> simp

/-- The overridden server field: a truthy server argument is stored through
the setter, otherwise the field is untouched. -/
theorem applyOverrides_server (sdk : BotMaestroSDK) (s l k : Option String) :
    (applyOverrides sdk s l k)._server
      = (if truthyStr s then some (stripTrailingSlash (s.getD "")) else sdk._server) := by
  unfold applyOverrides setServer
  cases s with
  | none => simp [truthyStr]
  | some v => by_cases hv : v = "" <;> simp [truthyStr, hv]

/-- The overridden login field. -/
theorem applyOverrides_login (sdk : BotMaestroSDK) (s l k : Option String) :
    (applyOverrides sdk s l k)._login = pyOrStr l sdk._login := by
  unfold applyOverrides setServer
  cases s with
  | none => simp [truthyStr]
  | some v => by_cases hv : v = "" <;> simp [truthyStr, hv]

/-- The overridden key field. -/
theorem applyOverrides_key (sdk : BotMaestroSDK) (s l k : Option String) :
    (applyOverrides sdk s l k)._key = pyOrStr k sdk._key := by
  unfold applyOverrides setServer
  cases s with
  | none => simp [truthyStr]
  | some v => by_cases hv : v = "" <;> simp [truthyStr, hv]

/-- A configured, logged-off client used by the C6 example. -/
def sdkOld : BotMaestroSDK :=
  { _server := some "http://old", _login := some "u", _key := some "k",
    _access_token := none }

/-- Counterexample to C6: providing server "http://x/" stores "http://x",
not the provided value, because the assignment goes through the normalising
server property setter. -/
theorem claim6_counterexample :
    ((login sdkOld (some "http://x/") none none respBadThing).2.1)._server
        = some "http://x" ∧
    (some "http://x" : Option String) ≠ some "http://x/" := by
  constructor
  · rfl
  · decide

/-- C6 as amended: a provided non-empty login or key argument replaces the
stored credential verbatim; a provided non-empty server argument is stored
after stripping one trailing slash; an absent or empty argument leaves the
stored field unchanged. -/
theorem claim6_amended :
    ∀ (sdk : BotMaestroSDK) (s l k : Option String) (resp : Response),
      (∀ v, s = some v → v ≠ "" →
        ((login sdk s l k resp).2.1)._server = some (stripTrailingSlash v)) ∧
      ((s = none ∨ s = some "") → ((login sdk s l k resp).2.1)._server = sdk._server) ∧
      (∀ v, l = some v → v ≠ "" → ((login sdk s l k resp).2.1)._login = some v) ∧
      ((l = none ∨ l = some "") → ((login sdk s l k resp).2.1)._login = sdk._login) ∧
      (∀ v, k = some v → v ≠ "" → ((login sdk s l k resp).2.1)._key = some v) ∧
      ((k = none ∨ k = some "") → ((login sdk s l k resp).2.1)._key = sdk._key) := by
  intro sdk s l k resp
  obtain ⟨hs, hl, hk⟩ := login_keeps_credentials sdk s l k resp
  refine ⟨?_, ?_, ?_, ?_, ?_, ?_⟩
  · rintro v rfl hv
    rw [hs, applyOverrides_server]
    simp [truthyStr, hv]
  · rintro (rfl | rfl) <;> rw [hs, applyOverrides_server] <;> simp [truthyStr]
  · rintro v rfl hv
    rw [hl, applyOverrides_login]
    simp [pyOrStr, truthyStr, hv]
  · rintro (rfl | rfl) <;> rw [hl, applyOverrides_login] <;> simp [pyOrStr, truthyStr]
  · rintro v rfl hv
    rw [hk, applyOverrides_key]
    simp [pyOrStr, truthyStr, hv]
  · rintro (rfl | rfl) <;> rw [hk, applyOverrides_key] <;> simp [pyOrStr, truthyStr]

/-- Witness for the amended C6: the trailing slash of the provided server
is stripped before storing. -/
theorem claim6_witness :
    ((login sdkOld (some "http://x/") none none respBadThing).2.1)._server
      = some (stripTrailingSlash "http://x/") :=
  (claim6_amended sdkOld (some "http://x/") none none respBadThing).1
    "http://x/" rfl (by decide)

/-- Lookup of the only binding of a one-field JSON object. -/
theorem jsonFind_singleton (k : String) (v : Json) : jsonFind [(k, v)] k = some v := by
  simp [jsonFind]

/-- Storing a JSON string token keeps it. -/
theorem pyToOpt_str (t : String) : pyToOpt (.str t) = some (.str t) := rfl

/-- C4: a 200 login response whose JSON body holds access_token T stores
token T and succeeds; a non-200 login response raises ValueError carrying
the status code and the body text; and with a stored token every
authenticated call issues exactly one request that carries the token as the
access_token entry of its form data (POST) or query parameters (GET). -/
theorem claim4_token_lifecycle :
    (∀ (sdk : BotMaestroSDK) (s l k : Option String) (resp : Response) (T : String),
      truthyStr (applyOverrides sdk s l k)._server = true →
      truthyStr (applyOverrides sdk s l k)._login = true →
      truthyStr (applyOverrides sdk s l k)._key = true →
      resp.status_code = 200 →
      Json.parse resp.text = some (.obj [("access_token", .str T)]) →
      (login sdk s l k resp).1 = .ok () ∧
        ((login sdk s l k resp).2.1)._access_token = some (.str T)) ∧
    (∀ (sdk : BotMaestroSDK) (s l k : Option String) (resp : Response),
      truthyStr (applyOverrides sdk s l k)._server = true →
      truthyStr (applyOverrides sdk s l k)._login = true →
      truthyStr (applyOverrides sdk s l k)._key = true →
      resp.status_code ≠ 200 →
      (login sdk s l k resp).1
        = .error (.valueError [serverReturnedMsg "login" resp.status_code resp.text])) ∧
    (∀ sdk tok a b c d resp, sdk._access_token = some tok →
      (alert sdk a b c d resp).2.length = 1 ∧
      ∀ r ∈ (alert sdk a b c d resp).2, r.verb = .post ∧ ("access_token", tok) ∈ r.data) ∧
    (∀ sdk tok em us su bo ty gr resp, sdk._access_token = some tok →
      (message sdk em us su bo ty gr resp).2.length = 1 ∧
      ∀ r ∈ (message sdk em us su bo ty gr resp).2,
        r.verb = .post ∧ ("access_token", tok) ∈ r.data) ∧
    (∀ sdk tok al pa te resp, sdk._access_token = some tok →
      (create_task sdk al pa te resp).2.length = 1 ∧
      ∀ r ∈ (create_task sdk al pa te resp).2,
        r.verb = .post ∧ ("access_token", tok) ∈ r.data) ∧
    (∀ sdk tok ti st ms resp, sdk._access_token = some tok →
      (finish_task sdk ti st ms resp).2.length = 1 ∧
      ∀ r ∈ (finish_task sdk ti st ms resp).2,
        r.verb = .post ∧ ("access_token", tok) ∈ r.data) ∧
    (∀ sdk tok ti resp, sdk._access_token = some tok →
      (restart_task sdk ti resp).2.length = 1 ∧
      ∀ r ∈ (restart_task sdk ti resp).2,
        r.verb = .post ∧ ("access_token", tok) ∈ r.data) ∧
    (∀ sdk tok ti resp, sdk._access_token = some tok →
      (get_task sdk ti resp).2.length = 1 ∧
      ∀ r ∈ (get_task sdk ti resp).2,
        r.verb = .get ∧ ("access_token", tok) ∈ r.params) ∧
    (∀ sdk tok al co resp, sdk._access_token = some tok →
      (new_log sdk al co resp).2.length = 1 ∧
      ∀ r ∈ (new_log sdk al co resp).2,
        r.verb = .post ∧ ("access_token", tok) ∈ r.data) ∧
    (∀ sdk tok al va resp, sdk._access_token = some tok →
      (new_log_entry sdk al va resp).2.length = 1 ∧
      ∀ r ∈ (new_log_entry sdk al va resp).2,
        r.verb = .post ∧ ("access_token", tok) ∈ r.data) ∧
    (∀ sdk tok al dt resp, sdk._access_token = some tok →
      (get_log sdk al dt resp).2.length = 1 ∧
      ∀ r ∈ (get_log sdk al dt resp).2,
        r.verb = .get ∧ ("access_token", tok) ∈ r.params) ∧
    (∀ sdk tok al resp, sdk._access_token = some tok →
      (delete_log sdk al resp).2.length = 1 ∧
      ∀ r ∈ (delete_log sdk al resp).2,
        r.verb = .post ∧ ("access_token", tok) ∈ r.data) ∧
    (∀ sdk tok ti an fc resp, sdk._access_token = some tok →
      (post_artifact sdk ti an fc resp).2.length = 1 ∧
      ∀ r ∈ (post_artifact sdk ti an fc resp).2,
        r.verb = .post ∧ ("access_token", tok) ∈ r.data) ∧
    (∀ sdk tok ai resp, sdk._access_token = some tok →
      (get_artifact sdk ai resp).2.length = 1 ∧
      ∀ r ∈ (get_artifact sdk ai resp).2,
        r.verb = .get ∧ ("access_token", tok) ∈ r.params) := by
  refine ⟨?_, ?_, ?_, ?_, ?_, ?_, ?_, ?_, ?_, ?_, ?_, ?_, ?_, ?_⟩
  · intro sdk s l k resp T h1 h2 h3 h200 hp
    simp [login, h1, h2, h3, h200, hp, jsonFind_singleton, pyToOpt_str]
  · intro sdk s l k resp h1 h2 h3 h200
    simp [login, h1, h2, h3, h200]
  all_goals intro sdk tok
  all_goals intros
  all_goals
    simp_all [alert, message, create_task, finish_task, restart_task, get_task,
      new_log, new_log_entry, get_log, delete_log, post_artifact, get_artifact]
  all_goals (repeat' split) <;> simp

/-- Witness for C4: a concrete successful login stores token T. -/
theorem claim4_witness :
    (login sdkOld none none none
      { status_code := 200, text := "\x7b\"access_token\":\"T\"\x7d",
        headers := [], content := [] }).1 = .ok () ∧
    ((login sdkOld none none none
      { status_code := 200, text := "\x7b\"access_token\":\"T\"\x7d",
        headers := [], content := [] }).2.1)._access_token = some (.str "T") :=
  claim4_token_lifecycle.1 sdkOld none none none
    { status_code := 200, text := "\x7b\"access_token\":\"T\"\x7d",
      headers := [], content := [] } "T" rfl rfl rfl rfl rfl

/-- The list comprehension of get_log applied to a list of JSON objects:
it never fails and projects the columns binding of each object (none when
absent). -/
theorem entryColumns_allObj (l : List Json) (h : ∀ e ∈ l, ∃ fs, e = Json.obj fs) :
    entryColumns l = .ok (l.map (fun e => jsonObjGet e "columns")) := by
  induction l with
  | nil => rfl
  | cons e t ih =>
    obtain ⟨fs, rfl⟩ := h e (List.mem_cons_self e t)
    have ht := ih (fun x hx => h x (List.mem_cons_of_mem _ hx))
    simp [entryColumns, ht, jsonObjGet]

/-- C8: a 200 get_log response whose body is the JSON object with a message
field holding a JSON-encoded array of objects returns the columns
projection of each object, in order. -/
theorem claim8_get_log_projection :
    ∀ (sdk : BotMaestroSDK) (tok : Json) (al dt : String) (resp : Response)
      (m : String) (entries : List Json),
      sdk._access_token = some tok →
      resp.status_code = 200 →
      Json.parse resp.text = some (.obj [("message", .str m)]) →
      Json.parse m = some (.arr entries) →
      (∀ e ∈ entries, ∃ fs, e = Json.obj fs) →
      (get_log sdk al dt resp).1
        = .ok (entries.map (fun e => jsonObjGet e "columns")) := by
  intro sdk tok al dt resp m entries htok h200 hp hm hobj
  simp [get_log, htok, h200, hp, hm, jsonFind_singleton, entryColumns_allObj entries hobj]

/-- The concrete get_log response of the test case in the specification. -/
def respLog : Response :=
  { status_code := 200,
    text := "\x7b\"message\": \"[\x7b\\\"columns\\\":\x7b\\\"a\\\":1\x7d\x7d,\x7b\\\"columns\\\":\x7b\\\"a\\\":2\x7d\x7d]\"\x7d",
    headers := [], content := [] }

/-- Witness for C8 at the literal response body of the specification. -/
theorem claim8_witness :
    (get_log sdkT "act" "" respLog).1
      = .ok [some (Json.obj [("a", Json.num 1)]), some (Json.obj [("a", Json.num 2)])] := by
  have h := claim8_get_log_projection sdkT (.str "T") "act" "" respLog
    "[\x7b\"columns\":\x7b\"a\":1\x7d\x7d,\x7b\"columns\":\x7b\"a\":2\x7d\x7d]"
    [Json.obj [("columns", Json.obj [("a", Json.num 1)])],
     Json.obj [("columns", Json.obj [("a", Json.num 2)])]]
    rfl rfl rfl rfl ?_
  · exact h
  · intro e he
    simp only [List.mem_cons, List.not_mem_nil, or_false] at he
    rcases he with rfl | rfl
    · exact ⟨_, rfl⟩
    · exact ⟨_, rfl⟩

/-- C10: on the same shape of 200 get_log response, an entry object lacking
a columns key does not make the call fail: the result keeps one element per
entry and holds none at the position of the entry without the key. -/
theorem claim10_get_log_missing_columns :
    ∀ (sdk : BotMaestroSDK) (tok : Json) (al dt : String) (resp : Response)
      (m : String) (entries : List Json),
      sdk._access_token = some tok →
      resp.status_code = 200 →
      Json.parse resp.text = some (.obj [("message", .str m)]) →
      Json.parse m = some (.arr entries) →
      (∀ e ∈ entries, ∃ fs, e = Json.obj fs) →
      (get_log sdk al dt resp).1
        = .ok (entries.map (fun e => jsonObjGet e "columns")) ∧
      (entries.map (fun e => jsonObjGet e "columns")).length = entries.length ∧
      ∀ (i : Nat) (fs : List (String × Json)),
        entries[i]? = some (Json.obj fs) → jsonFind fs "columns" = none →
        (entries.map (fun e => jsonObjGet e "columns"))[i]? = some none := by
  intro sdk tok al dt resp m entries htok h200 hp hm hobj
  refine ⟨?_, by simp, ?_⟩
  · simp [get_log, htok, h200, hp, hm, jsonFind_singleton, entryColumns_allObj entries hobj]
  · intro i fs hi hnone
    rw [List.getElem?_map, hi]
    simp [jsonObjGet, hnone]

/-- A 200 get_log response whose second entry has no columns key. -/
def respLogGap : Response :=
  { status_code := 200,
    text := "\x7b\"message\": \"[\x7b\\\"columns\\\":\x7b\\\"a\\\":1\x7d\x7d,\x7b\x7d]\"\x7d",
    headers := [], content := [] }

/-- Witness for C10: the malformed second entry yields none, not a
failure. -/
theorem claim10_witness :
    (get_log sdkT "act" "" respLogGap).1
      = .ok [some (Json.obj [("a", Json.num 1)]), none] := by
  have h := claim10_get_log_missing_columns sdkT (.str "T") "act" "" respLogGap
    "[\x7b\"columns\":\x7b\"a\":1\x7d\x7d,\x7b\x7d]"
    [Json.obj [("columns", Json.obj [("a", Json.num 1)])], Json.obj []]
    rfl rfl rfl rfl ?_
  · exact h.1
  · intro e he
    simp only [List.mem_cons, List.not_mem_nil, or_false] at he
    rcases he with rfl | rfl
    · exact ⟨_, rfl⟩
    · exact ⟨_, rfl⟩

/-- Counterexample to C1: a non-200 alert response with JSON message
"bad thing" raises ValueError with the unformatted string and the raw body
as separate arguments; neither the status code nor the extracted message
appears, so the error differs from the value of the uniform policy. -/
theorem claim1_counterexample :
    (alert sdkT "1" "t" "m" "INFO" respBadThing).1
      = .error (.valueError ["Error during alert. %s", "\x7b\"message\":\"bad thing\"\x7d"]) ∧
    Err.valueError ["Error during alert. %s", "\x7b\"message\":\"bad thing\"\x7d"]
      ≠ .valueError [serverReturnedMsg "alert" 500 "bad thing"] :=
  ⟨rfl, by decide⟩

/-- C1 as amended: every endpoint except alert and message normalises a
non-200 response through the shared block (status code plus the JSON
message field, raw-text fallback when the body is not JSON, AttributeError
when the JSON body is not an object); alert raises ValueError with the
format string and raw body as two arguments, without status or JSON
parsing; message formats status and JSON message field but lets a JSON
decoding failure propagate instead of falling back to the raw text.  In
every case the non-200 outcome is an error, never a success value. -/
theorem claim1_amended :
    (∀ sdk tok a b c d resp, sdk._access_token = some tok → resp.status_code ≠ 200 →
      (alert sdk a b c d resp).1
        = .error (.valueError ["Error during alert. %s", resp.text])) ∧
    (∀ sdk tok em us su bo ty gr resp, sdk._access_token = some tok →
      resp.status_code ≠ 200 →
      (message sdk em us su bo ty gr resp).1 = .error (messageNon200 resp)) ∧
    (∀ sdk tok al pa te resp, sdk._access_token = some tok → resp.status_code ≠ 200 →
      (create_task sdk al pa te resp).1 = .error (non200Error "task create" resp)) ∧
    (∀ sdk tok ti st ms resp, sdk._access_token = some tok → resp.status_code ≠ 200 →
      (finish_task sdk ti st ms resp).1 = .error (non200Error "task finish" resp)) ∧
    (∀ sdk tok ti resp, sdk._access_token = some tok → resp.status_code ≠ 200 →
      (restart_task sdk ti resp).1 = .error (non200Error "task restart" resp)) ∧
    (∀ sdk tok ti resp, sdk._access_token = some tok → resp.status_code ≠ 200 →
      (get_task sdk ti resp).1 = .error (non200Error "task get" resp)) ∧
    (∀ sdk tok al co resp, sdk._access_token = some tok → resp.status_code ≠ 200 →
      (new_log sdk al co resp).1 = .error (non200Error "new log" resp)) ∧
    (∀ sdk tok al va resp, sdk._access_token = some tok → resp.status_code ≠ 200 →
      (new_log_entry sdk al va resp).1 = .error (non200Error "new log entry" resp)) ∧
    (∀ sdk tok al dt resp, sdk._access_token = some tok → resp.status_code ≠ 200 →
      (get_log sdk al dt resp).1 = .error (non200Error "log read" resp)) ∧
    (∀ sdk tok al resp, sdk._access_token = some tok → resp.status_code ≠ 200 →
      (delete_log sdk al resp).1 = .error (non200Error "log delete" resp)) ∧
    (∀ sdk tok ti an fc resp, sdk._access_token = some tok → resp.status_code ≠ 200 →
      (post_artifact sdk ti an fc resp).1
        = .error (non200Error "artifact posting" resp)) ∧
    (∀ sdk tok ai resp, sdk._access_token = some tok → resp.status_code ≠ 200 →
      (get_artifact sdk ai resp).1 = .error (non200Error "artifact get" resp)) := by
  refine ⟨?_, ?_, ?_, ?_, ?_, ?_, ?_, ?_, ?_, ?_, ?_, ?_⟩ <;> intros <;>
    simp_all [alert, message, create_task, finish_task, restart_task, get_task,
      new_log, new_log_entry, get_log, delete_log, post_artifact, get_artifact]

/-- Witness for the amended C1: a conforming endpoint surfaces status 500
and the extracted message "bad thing" in one formatted ValueError. -/
theorem claim1_witness :
    (finish_task sdkT "1" "SUCCESS" "done" respBadThing).1
      = .error (.valueError ["Error during task finish. Server returned 500. bad thing"]) := by
  have h := claim1_amended.2.2.2.1 sdkT (.str "T") "1" "SUCCESS" "done" respBadThing
    rfl (by decide)
  exact h

/-- pyRfindAux on an appended list finds the occurrence of the right part,
shifted by the length of the left part. -/
theorem pyRfindAux_append_right (c : Char) (l1 l2 : List Char) (i : Nat)
    (h : pyRfindAux c l2 = some i) :
    pyRfindAux c (l1 ++ l2) = some (l1.length + i) := by
  induction l1 with
  | nil => simpa using h
  | cons a t ih =>
    have hstep : pyRfindAux c ((a :: t) ++ l2)
        = match pyRfindAux c (t ++ l2) with
          | some j => some (j + 1)
          | none => if a = c then some 0 else none := rfl
    rw [hstep, ih]
    show some (t.length + i + 1) = some ((a :: t).length + i)
    simp only [List.length_cons]
    congr 1
    omega

/-- String toList distributes over append. -/
theorem toList_append (a b : String) : (a ++ b).toList = a.toList ++ b.toList := rfl

/-- pyRfindAux finds nothing in a list not containing the character. -/
theorem pyRfindAux_not_mem (c : Char) (l : List Char) (h : c ∉ l) :
    pyRfindAux c l = none := by
  induction l with
  | nil => rfl
  | cons a t ih =>
    rw [List.mem_cons] at h
    push_neg at h
    have hstep : pyRfindAux c (a :: t)
        = match pyRfindAux c t with
          | some j => some (j + 1)
          | none => if a = c then some 0 else none := rfl
    rw [hstep, ih h.2]
    show (if a = c then some 0 else none) = none
    rw [if_neg (fun hac => h.1 hac.symm)]

/-- pyRfindAux on a list of the form left ++ c :: right, with c absent from
the right part, finds exactly the separator position. -/
theorem pyRfindAux_sep (c : Char) (l1 l2 : List Char) (h : c ∉ l2) :
    pyRfindAux c (l1 ++ c :: l2) = some l1.length := by
  have h2 : pyRfindAux c (c :: l2) = some 0 := by
    have hstep : pyRfindAux c (c :: l2)
        = match pyRfindAux c l2 with
          | some j => some (j + 1)
          | none => if c = c then some 0 else none := rfl
    rw [hstep, pyRfindAux_not_mem c l2 h]
    show (if c = c then some 0 else none) = some 0
    rw [if_pos rfl]
  simpa using pyRfindAux_append_right c l1 (c :: l2) 0 h2

/-- The first slice of get_artifact, applied to a header value that ends in
an equals sign followed by any double-quoted filename not containing an
equals sign, recovers the filename. -/
theorem pySlice_quoted (pre name : String) (h : '=' ∉ name.toList) :
    pySlice (pre ++ "=\"" ++ name ++ "\"")
      (pyRfind (pre ++ "=\"" ++ name ++ "\"") '=' + 2) (-1) = name := by
  have hlist : (pre ++ "=\"" ++ name ++ "\"").toList
      = pre.toList ++ '=' :: ('"' :: (name.toList ++ ['"'])) := by
    simp [toList_append]
  have hne : '=' ∉ ('"' :: (name.toList ++ ['"'])) := by
    intro hc
    rcases List.mem_cons.mp hc with h1 | h1
    · exact absurd h1 (by decide)
    · rcases List.mem_append.mp h1 with h2 | h2
      · exact h h2
      · exact absurd h2 (by decide)
  have hfind : pyRfind (pre ++ "=\"" ++ name ++ "\"") '='
      = (pre.toList.length : Int) := by
    unfold pyRfind
    rw [hlist, pyRfindAux_sep '=' _ _ hne]
  unfold pySlice
  rw [hfind, hlist]
  have hlen : (pre.toList ++ '=' :: ('"' :: (name.toList ++ ['"']))).length
      = pre.toList.length + name.toList.length + 3 := by
    simp only [List.length_append, List.length_cons, List.length_nil]
    omega
  rw [hlen]
  have h1 : pyIdx (pre.toList.length + name.toList.length + 3)
      ((pre.toList.length : Int) + 2) = pre.toList.length + 2 := by
    unfold pyIdx
    split <;> omega
  have h2 : pyIdx (pre.toList.length + name.toList.length + 3) (-1)
      = pre.toList.length + name.toList.length + 2 := by
    unfold pyIdx
    split <;> omega
  rw [h1, h2]
  have h3 : pre.toList.length + name.toList.length + 2 - (pre.toList.length + 2)
      = name.toList.length := by omega
  rw [h3, List.drop_append]
  show String.mk ((name.toList ++ ['"']).take name.toList.length) = name
  rw [List.take_left]
  rfl

/-- The second stage of get_artifact (before-last-underscore plus
from-last-dot) on a filename of the form base_mid.ext, where the
decomposition marks the last underscore and the last dot (the underscore
occurs in neither mid nor ext, the dot not in ext): it returns
base ++ "." ++ ext. -/
theorem stripRule_structured (base mid ext : String)
    (hm1 : '_' ∉ mid.toList) (he1 : '_' ∉ ext.toList) (he2 : '.' ∉ ext.toList) :
    pySliceTo (base ++ "_" ++ mid ++ "." ++ ext)
        (pyRfind (base ++ "_" ++ mid ++ "." ++ ext) '_')
      ++ pySliceFrom (base ++ "_" ++ mid ++ "." ++ ext)
        (pyRfind (base ++ "_" ++ mid ++ "." ++ ext) '.')
      = base ++ "." ++ ext := by
  have hlist1 : (base ++ "_" ++ mid ++ "." ++ ext).toList
      = base.toList ++ '_' :: (mid.toList ++ '.' :: ext.toList) := by
    simp [toList_append]
  have hlist2 : (base ++ "_" ++ mid ++ "." ++ ext).toList
      = (base.toList ++ '_' :: mid.toList) ++ '.' :: ext.toList := by
    simp [toList_append]
  have hne_u : '_' ∉ (mid.toList ++ '.' :: ext.toList) := by
    intro hc
    rcases List.mem_append.mp hc with h1 | h1
    · exact hm1 h1
    · rcases List.mem_cons.mp h1 with h2 | h2
      · exact absurd h2 (by decide)
      · exact he1 h2
  have hfind_u : pyRfind (base ++ "_" ++ mid ++ "." ++ ext) '_'
      = (base.toList.length : Int) := by
    unfold pyRfind
    rw [hlist1, pyRfindAux_sep '_' _ _ hne_u]
  have hfind_d : pyRfind (base ++ "_" ++ mid ++ "." ++ ext) '.'
      = ((base.toList ++ '_' :: mid.toList).length : Int) := by
    unfold pyRfind
    rw [hlist2, pyRfindAux_sep '.' _ _ he2]
  have hTo : pySliceTo (base ++ "_" ++ mid ++ "." ++ ext)
      (pyRfind (base ++ "_" ++ mid ++ "." ++ ext) '_') = base := by
    unfold pySliceTo
    rw [hfind_u, hlist1]
    have hlen1 : (base.toList ++ '_' :: (mid.toList ++ '.' :: ext.toList)).length
        = base.toList.length + mid.toList.length + ext.toList.length + 2 := by
      simp only [List.length_append, List.length_cons]
      omega
    rw [hlen1]
    have h1 : pyIdx (base.toList.length + mid.toList.length + ext.toList.length + 2)
        (base.toList.length : Int) = base.toList.length := by
      unfold pyIdx
      split <;> omega
    rw [h1, List.take_left]
    rfl
  have hFrom : pySliceFrom (base ++ "_" ++ mid ++ "." ++ ext)
      (pyRfind (base ++ "_" ++ mid ++ "." ++ ext) '.') = "." ++ ext := by
    unfold pySliceFrom
    rw [hfind_d, hlist2]
    have hlen2 : ((base.toList ++ '_' :: mid.toList) ++ '.' :: ext.toList).length
        = (base.toList ++ '_' :: mid.toList).length + ext.toList.length + 1 := by
      simp only [List.length_append, List.length_cons]
      omega
    rw [hlen2]
    have h2 : pyIdx ((base.toList ++ '_' :: mid.toList).length + ext.toList.length + 1)
        ((base.toList ++ '_' :: mid.toList).length : Int)
        = (base.toList ++ '_' :: mid.toList).length := by
      unfold pyIdx
      split <;> omega
    rw [h2, List.drop_left]
    rfl
  rw [hTo, hFrom, String.append_assoc]

/-- C3 as amended: the code slices the header value from two characters
past the last equals sign through the second-to-last character, i.e. it
expects the filename double-quoted; for every 200 response whose
Content-Disposition header value ends with the quoted filename
base_mid.ext (where the shown underscore and dot are the last ones of the
name and the name holds no equals sign), get_artifact returns the part of
the name before its last underscore concatenated with the part from its
last dot onward, i.e. base ++ "." ++ ext, together with the body bytes
verbatim. -/
theorem claim3_amended :
    ∀ (sdk : BotMaestroSDK) (tok : Json) (ai : Int) (pre base mid ext : String)
      (content : List Nat),
      sdk._access_token = some tok →
      '=' ∉ base.toList → '=' ∉ mid.toList → '=' ∉ ext.toList →
      '_' ∉ mid.toList → '_' ∉ ext.toList → '.' ∉ ext.toList →
      (get_artifact sdk ai
        { status_code := 200, text := "",
          headers := [("Content-Disposition",
            pre ++ "=\"" ++ (base ++ "_" ++ mid ++ "." ++ ext) ++ "\"")],
          content := content }).1
        = .ok (base ++ "." ++ ext, content) := by
  intro sdk tok ai pre base mid ext content htok hb hm he hum hue hde
  have hname : '=' ∉ (base ++ "_" ++ mid ++ "." ++ ext).toList := by
    rw [show (base ++ "_" ++ mid ++ "." ++ ext).toList
        = base.toList ++ '_' :: (mid.toList ++ '.' :: ext.toList) from by
      simp [toList_append]]
    intro hc
    rcases List.mem_append.mp hc with h1 | h1
    · exact hb h1
    · rcases List.mem_cons.mp h1 with h2 | h2
      · exact absurd h2 (by decide)
      · rcases List.mem_append.mp h2 with h3 | h3
        · exact hm h3
        · rcases List.mem_cons.mp h3 with h4 | h4
          · exact absurd h4 (by decide)
          · exact he h4
  simp only [get_artifact, htok, getHeader, List.find?, beq_self_eq_true, Option.map_some]
  norm_num
  rw [pySlice_quoted pre _ hname]
  rw [stripRule_structured base mid ext hum hue hde]

/-- A 200 get_artifact response with the unquoted header of the claim. -/
def respUnquoted : Response :=
  { status_code := 200, text := "",
    headers := [("Content-Disposition", "attachment; filename=report_20240101.pdf")],
    content := [1, 2, 3] }

/-- Counterexample to C3: on the unquoted header of the claim the slice from two
past the last equals sign through the second-to-last character yields
"eport.pd", not "report.pdf". -/
theorem claim3_counterexample :
    (get_artifact sdkT 7 respUnquoted).1 = .ok ("eport.pd", [1, 2, 3]) ∧
    "eport.pd" ≠ "report.pdf" :=
  ⟨rfl, by decide⟩

/-- Witness for the amended C3 at a concrete quoted header. -/
theorem claim3_witness :
    (get_artifact sdkT 7
      { status_code := 200, text := "",
        headers := [("Content-Disposition",
          "attachment; filename=\"report_20240101.pdf\"")],
        content := [9] }).1 = .ok ("report.pdf", [9]) := by
  have h := claim3_amended sdkT (.str "T") 7 "attachment; filename"
    "report" "20240101" "pdf" [9] rfl
    (by decide) (by decide) (by decide) (by decide) (by decide) (by decide)
  exact h

end Botcity



